import Mathlib

/-!
Verification development for the fan GATT handler of `nevermore-controller`
(`src/gatt/fan.cpp` and `src/gatt/handler_helpers.hpp`).

Modelling conventions:
* machine integers are `Nat` (widths are respected where overflow can occur);
* the globals `g_fan_power`, `g_fan_power_override`, the PWM duty register, the
  tachometer reading, the fan-policy parameters and the `NotifyState` slot table
  are gathered into one explicit record `FanState`;
* a thrown `AttrWriteException` and a returned nonzero ATT code both surface as
  `WriteResult.err` (the dispatcher outside this translation unit converts the
  exception into the same ATT error code);
* the BLE stack's per-connection pending-notification list is modelled by the
  `pending` flag of each slot: `att_server_request_to_send_notification` links a
  callback registration at most once, so one flag per slot is exact;
* `live` lists the connection handles for which the stack currently has an HCI
  connection (`hci_connection_for_handle` / `att_server_for_handle` succeed);
* a ghost counter `notifyCount` counts invocations of `NotifyState::notify()`.
-/

namespace Nevermore

/-- ATT error code `ATT_ERROR_INVALID_OFFSET` (0x07). -/
def ATT_ERROR_INVALID_OFFSET : Nat := 7

/-- ATT error code `ATT_ERROR_INVALID_ATTRIBUTE_VALUE_LENGTH` (0x0D). -/
def ATT_ERROR_INVALID_ATTRIBUTE_VALUE_LENGTH : Nat := 13

/-- btstack's `HCI_CON_HANDLE_INVALID` (0xFFFF); slot contexts are compared
against it after an integral cast, exactly as the source does with
`uintptr_t(cb.context)`. -/
def HCI_CON_HANDLE_INVALID : Nat := 65535

/-- Modelled from the spec: the raw representation of `BLE::Percentage8`
(`sdk/ble_data_types.hpp` is not among the sources). An 8-bit unsigned number
in 0.5% units; 255 (0xFF) is the reserved code for the value *unknown*
(`BLE::NOT_KNOWN`). Equality is raw-byte equality. -/
def NOT_KNOWN : Nat := 255

/-- Modelled from the spec: `Percentage8::value_or(0)`, in percent (a known raw
byte `p` denotes `p / 2` percent; `NOT_KNOWN` falls back to `0`). -/
def value_or0 (p : Nat) : ℚ := if p = NOT_KNOWN then 0 else (p : ℚ) / 2

/-- PWM duty programmed by `fan_power_set`:
`uint16_t(numeric_limits<uint16_t>::max() * (power.value_or(0) / 100))`.
With `value_or(0) = p / 2` percent this is `⌊65535 * p / 200⌋`; the C cast
truncates. -/
def dutyOf (p : Nat) : Nat := 65535 * (if p = NOT_KNOWN then 0 else p) / 200

/-- Duty the spec's quantified invariant claims: `round(65535 × fraction)`.
This definition follows the spec's words (for comparison with `dutyOf`, which
is translated from the source). -/
def specRoundDuty (p : Nat) : Nat := (65535 * (if p = NOT_KNOWN then 0 else p) + 100) / 200

/-! ### GATT attribute handles

The numeric handle values come from the build-time GATT database, which is not
among the sources; they are opaque distinct constants here. Only their
distinctness matters to `attr_write`'s dispatch. -/

def HANDLE_FAN_POLICY_COOLDOWN_VALUE : Nat := 2

def HANDLE_FAN_POLICY_VOC_PASSIVE_MAX_VALUE : Nat := 3

def HANDLE_FAN_POLICY_VOC_IMPROVE_MIN_VALUE : Nat := 4

def HANDLE_FAN_AGGREGATE_CLIENT_CONFIGURATION : Nat := 5

def HANDLE_FAN_POWER_OVERRIDE_VALUE : Nat := 6

/-! ### WriteConsumer (handler_helpers.hpp, lines 42-95) -/

/-- `WriteConsumer{offset, buffer, buffer_size}`: a cursor over the attribute
value bytes. `buffer` holds byte values; only indices below `buffer_size` are
meaningful. -/
structure WriteConsumer where
  offset : Nat
  buffer : List Nat
  buffer_size : Nat
deriving Repr, DecidableEq

/-- `WriteConsumer::has_available(n)`: false whenever the cursor is past the
end of the buffer (even for 0-byte reads), else whether `n` bytes remain. -/
def WriteConsumer.has_available (c : WriteConsumer) (n : Nat) : Bool :=
  if c.buffer_size < c.offset then false else decide (n ≤ c.buffer_size - c.offset)

/-- `WriteConsumer::remaining()`: 0 when the cursor is past the end, else the
bytes left. -/
def WriteConsumer.remaining (c : WriteConsumer) : Nat :=
  if c.buffer_size < c.offset then 0 else c.buffer_size - c.offset

/-- `WriteConsumer::operator A()` for an `n`-byte standard-layout type: throws
`AttrWriteException{ATT_ERROR_INVALID_ATTRIBUTE_VALUE_LENGTH}` unless `n` bytes
are available, else memcpys the bytes at `[offset, offset+n)` and advances the
cursor. The `.error` constructor carries the thrown error code. -/
def WriteConsumer.consume (c : WriteConsumer) (n : Nat) :
    Except Nat (List Nat × WriteConsumer) :=
  if c.has_available n then
    .ok ((c.buffer.drop c.offset).take n, { c with offset := c.offset + n })
  else
    .error ATT_ERROR_INVALID_ATTRIBUTE_VALUE_LENGTH

/-- `WriteConsumer::exactly<A>()` for an `n`-byte type: throws unless exactly
`n` bytes remain, then reads them via the conversion operator. -/
def WriteConsumer.exactly (c : WriteConsumer) (n : Nat) :
    Except Nat (List Nat × WriteConsumer) :=
  if c.remaining ≠ n then .error ATT_ERROR_INVALID_ATTRIBUTE_VALUE_LENGTH
  else c.consume n

/-- Little-endian decoding of (up to) two bytes, as `memcpy` into a `uint16_t`
does on this little-endian target. -/
def leU16 (bs : List Nat) : Nat :=
  match bs with
  | [] => 0
  | [b0] => b0 % 256
  | b0 :: b1 :: _ => b0 % 256 + 256 * (b1 % 256)

/-! ### NotifyState (handler_helpers.hpp, lines 97-165) -/

/-- One `btstack_context_callback_registration_t` of `NotifyState::callbacks`:
`context` is the stored connection handle seen through `uintptr_t` (so
`HCI_CON_HANDLE_INVALID` marks a never-used slot and `0` is what `nullptr`
casts to); `pending` says whether this registration is currently linked into
its connection's `att_server.notification_requests` list. -/
structure Slot where
  context : Nat
  pending : Bool
deriving Repr, DecidableEq

/-- Initial slot, as set up by the `NotifyState` constructor. -/
def initSlot : Slot := ⟨HCI_CON_HANDLE_INVALID, false⟩

/-- `NotifyState::registered(conn)`: some slot's context equals `conn`. -/
def registered (slots : List Slot) (conn : Nat) : Bool :=
  slots.any fun cb => conn == cb.context

/-- Whether some slot is free in the sense `register_` tests for:
`context == HCI_CON_HANDLE_INVALID`. -/
def hasFreeSlot (slots : List Slot) : Bool :=
  slots.any fun cb => cb.context == HCI_CON_HANDLE_INVALID

/-- Loop body of `NotifyState::register_`: claim the first slot whose context
is `HCI_CON_HANDLE_INVALID`. -/
def registerGo (conn : Nat) : List Slot → Bool × List Slot
  | [] => (false, [])
  | cb :: rest =>
    if cb.context ≠ HCI_CON_HANDLE_INVALID then
      let r := registerGo conn rest
      (r.1, cb :: r.2)
    else
      (true, { cb with context := conn } :: rest)

/-- `NotifyState::register_(conn)`: no-op when already registered, else claim
the first free slot; returns whether a new registration happened. -/
def register_ (slots : List Slot) (conn : Nat) : Bool × List Slot :=
  if registered slots conn then (false, slots) else registerGo conn slots

/-- Loop body of `NotifyState::unregister`: on the first slot whose context
equals `conn`, remove the registration from the stack's pending-notification
list (`btstack_linked_list_remove`) and then set `context = nullptr`, i.e. 0. -/
def unregisterGo (conn : Nat) : List Slot → Bool × List Slot
  | [] => (false, [])
  | cb :: rest =>
    if conn ≠ cb.context then
      let r := unregisterGo conn rest
      (r.1, cb :: r.2)
    else
      (true, { context := 0, pending := false } :: rest)

/-- `NotifyState::unregister(conn)`: bails out (assert) when the stack has no
HCI connection for `conn`, else runs the removal loop. -/
def unregister (live : List Nat) (conn : Nat) (slots : List Slot) : Bool × List Slot :=
  if live.contains conn then unregisterGo conn slots else (false, slots)

/-- Handles for which `NotifyState::notify()` calls
`att_server_request_to_send_notification`: every slot context other than
`HCI_CON_HANDLE_INVALID` (note a dead slot contributes handle 0). -/
def notifyRequests (slots : List Slot) : List Nat :=
  slots.filterMap fun cb =>
    if cb.context = HCI_CON_HANDLE_INVALID then none else some cb.context

/-- Effect of `NotifyState::notify()` on the stack's pending lists: each
requested registration whose handle has an att server becomes linked (at most
once, so a `Bool` per slot). -/
def notifySlots (live : List Nat) (slots : List Slot) : List Slot :=
  slots.map fun cb =>
    if cb.context != HCI_CON_HANDLE_INVALID && live.contains cb.context then
      { cb with pending := true }
    else cb

/-- `NotifyState::client_configuration(conn)` (the CCCD read). -/
def client_configuration_read (slots : List Slot) (conn : Nat) : Nat :=
  if registered slots conn then 1 else 0

/-- `NotifyState::client_configuration(conn, consume)` (the CCCD write):
reads a `uint16_t` from the consumer (throwing on a short value), rejects
trailing bytes with a returned `ATT_ERROR_INVALID_ATTRIBUTE_VALUE_LENGTH`,
then registers or unregisters per `state & GATT_CLIENT_CFG_NOTIFY_FLAG`.
`.error` is a thrown code, `.ok (code, slots)` a returned code and the
resulting slot table. -/
def client_configuration_write (live : List Nat) (conn : Nat) (c : WriteConsumer)
    (slots : List Slot) : Except Nat (Nat × List Slot) :=
  match c.consume 2 with
  | .error e => .error e
  | .ok (bs, c2) =>
    if c2.remaining ≠ 0 then .ok (ATT_ERROR_INVALID_ATTRIBUTE_VALUE_LENGTH, slots)
    else
      let state := leU16 bs
      if state % 2 = 1 then .ok (0, (register_ slots conn).2)
      else .ok (0, (unregister live conn slots).2)

/-! ### Fan state and operations (fan.cpp) -/

/-- The process-wide state the fan handler mutates. `power` and `override` are
raw `Percentage8` bytes (`g_fan_power`, `g_fan_power_override`); `pwmDuty` is
the 16-bit compare value programmed via `pwm_set_gpio_duty`; `rpm` the current
tachometer RPM16; `cooldown`/`vocPassiveMax`/`vocImproveMin` the raw 16-bit
fan-policy parameters; `polLastActive` the policy instance's cooldown state
(`last_active_at`, abstract); `slots` the aggregate notifier's callback table;
`live` the stack's current HCI connection handles; `notifyCount` a ghost count
of `notify()` invocations. -/
structure FanState where
  power : Nat
  override : Nat
  pwmDuty : Nat
  rpm : Nat
  cooldown : Nat
  vocPassiveMax : Nat
  vocImproveMin : Nat
  polLastActive : Option Nat
  slots : List Slot
  live : List Nat
  notifyCount : Nat
deriving Repr, DecidableEq

/-- `g_notify_aggregate.notify()`: request a send for every assigned slot and
bump the ghost invocation counter. -/
def doNotify (s : FanState) : FanState :=
  { s with slots := notifySlots s.live s.slots, notifyCount := s.notifyCount + 1 }

/-- `fan_power_set` (fan.cpp lines 59-67): no-op when the raw value is equal,
else store the power, signal the aggregate notifier, and program the PWM with
the truncated duty. -/
def fan_power_set (p : Nat) (s : FanState) : FanState :=
  if s.power = p then s
  else
    let s1 := doNotify { s with power := p }
    { s1 with pwmDuty := dutyOf p }

/-- `fan_power()` (fan.cpp lines 71-73): `g_fan_power.value_or(0)`. -/
def fan_power (s : FanState) : ℚ := value_or0 s.power

/-- `fan_power_override` setter (fan.cpp lines 75-84): no-op on equality, else
store the override, signal the notifier, and — iff the value is known — snap
the power to it. -/
def fan_power_override_set (p : Nat) (s : FanState) : FanState :=
  if s.override = p then s
  else
    let s1 := doNotify { s with override := p }
    if p ≠ NOT_KNOWN then fan_power_set p s1 else s1

/-- Aggregate on-wire bytes (fan.cpp lines 49-53): `{power, override, rpm}`
with the 16-bit RPM little-endian. -/
def aggregateBytes (s : FanState) : List Nat :=
  [s.power % 256, s.override % 256, s.rpm % 256, s.rpm / 256 % 256]

/-- Body of the `fan-policy` timer (fan.cpp lines 115-120): when an override is
set, return before touching anything (the policy instance is not invoked); else
invoke the policy — `out` is the resulting `Percentage8` raw value and `pol`
the instance's advanced cooldown state — and apply it via `fan_power_set`. -/
def policyTick (out : Nat) (pol : Option Nat) (s : FanState) : FanState :=
  if s.override ≠ NOT_KNOWN then s
  else fan_power_set out { s with polLastActive := pol }

/-- Body of the `gatt-fan-tachometer-notify` timer (fan.cpp lines 107-113):
signal the notifier only when the reading changed. -/
def tachTick (r : Nat) (s : FanState) : FanState :=
  if s.rpm = r then s else doNotify { s with rpm := r }

/-- `disconnected` (fan.cpp lines 125-127): unregister the handle from the
aggregate notifier. -/
def disconnected (conn : Nat) (s : FanState) : FanState :=
  { s with slots := (unregister s.live conn s.slots).2 }

/-- Result of `attr_write`: not handled (`{}` / `std::nullopt`), an ATT error
code (returned or thrown), or success (`0`). -/
inductive WriteResult
  | notHandled
  | err (code : Nat)
  | ok
deriving Repr, DecidableEq

/-- `attr_write` (fan.cpp lines 156-175): reject cursors past the end with
`ATT_ERROR_INVALID_OFFSET`, then dispatch on the attribute handle. Policy
parameters use `exactly<uint16_t-sized>`; the aggregate CCCD defers to
`client_configuration`; Fan Power Override uses the plain one-byte conversion. -/
def attr_write (conn att_handle offset : Nat) (buffer : List Nat) (buffer_size : Nat)
    (s : FanState) : WriteResult × FanState :=
  if buffer_size < offset then (.err ATT_ERROR_INVALID_OFFSET, s)
  else
    let c : WriteConsumer := ⟨offset, buffer, buffer_size⟩
    if att_handle = HANDLE_FAN_POLICY_COOLDOWN_VALUE then
      match c.exactly 2 with
      | .error e => (.err e, s)
      | .ok (bs, _) => (.ok, { s with cooldown := leU16 bs })
    else if att_handle = HANDLE_FAN_POLICY_VOC_PASSIVE_MAX_VALUE then
      match c.exactly 2 with
      | .error e => (.err e, s)
      | .ok (bs, _) => (.ok, { s with vocPassiveMax := leU16 bs })
    else if att_handle = HANDLE_FAN_POLICY_VOC_IMPROVE_MIN_VALUE then
      match c.exactly 2 with
      | .error e => (.err e, s)
      | .ok (bs, _) => (.ok, { s with vocImproveMin := leU16 bs })
    else if att_handle = HANDLE_FAN_AGGREGATE_CLIENT_CONFIGURATION then
      match client_configuration_write s.live conn c s.slots with
      | .error e => (.err e, s)
      | .ok (code, slots2) =>
        if code = 0 then (.ok, { s with slots := slots2 })
        else (.err code, { s with slots := slots2 })
    else if att_handle = HANDLE_FAN_POWER_OVERRIDE_VALUE then
      match c.consume 1 with
      | .error e => (.err e, s)
      | .ok (bs, _) => (.ok, fan_power_override_set (bs.headD 0) s)
    else
      (.notHandled, s)

/-- Initial fan state: `g_fan_power = 0`, `g_fan_power_override = NOT_KNOWN`,
the PWM compare register reset to 0 by `pwm_init`, no connections. -/
def initState : FanState where
  power := 0
  override := NOT_KNOWN
  pwmDuty := 0
  rpm := 0
  cooldown := 0
  vocPassiveMax := 0
  vocImproveMin := 0
  polLastActive := none
  slots := []
  live := []
  notifyCount := 0

/-- Initial state with a single live subscriber, connection handle 7. -/
def subState : FanState := { initState with slots := [⟨7, false⟩], live := [7] }

/-- Whether connection `conn` has a pending (coalesced) outbound notification. -/
def pendingFor (slots : List Slot) (conn : Nat) : Bool :=
  slots.any fun cb => cb.context == conn && cb.pending

/-! ### Helper lemmas about the fan-state operations -/

lemma fps_power (d : Nat) (s : FanState) : (fan_power_set d s).power = d := by
  by_cases h : s.power = d <;> simp [fan_power_set, h, doNotify]

lemma fps_override (d : Nat) (s : FanState) :
    (fan_power_set d s).override = s.override := by
  by_cases h : s.power = d <;> simp [fan_power_set, h, doNotify]

lemma fps_noop (d : Nat) (s : FanState) (h : s.power = d) : fan_power_set d s = s := by
  simp [fan_power_set, h]

lemma fps_count (d : Nat) (s : FanState) :
    (fan_power_set d s).notifyCount = s.notifyCount + (if s.power = d then 0 else 1) := by
  by_cases h : s.power = d <;> simp [fan_power_set, h, doNotify]

lemma fpo_noop (d : Nat) (s : FanState) (h : s.override = d) :
    fan_power_override_set d s = s := by
  simp [fan_power_override_set, h]

lemma fpo_override (d : Nat) (s : FanState) : (fan_power_override_set d s).override = d := by
  by_cases h : s.override = d
  · rw [fpo_noop d s h, h]
  · by_cases hd : d = NOT_KNOWN
    · subst hd; simp [fan_power_override_set, h, doNotify]
    · simp [fan_power_override_set, h, hd, fps_override, doNotify]

lemma fpo_count (d : Nat) (s : FanState) :
    (fan_power_override_set d s).notifyCount
      = s.notifyCount + (if s.override = d then 0
          else if d ≠ NOT_KNOWN ∧ s.power ≠ d then 2 else 1) := by
  by_cases h : s.override = d
  · simp [fpo_noop d s h, h]
  · by_cases hd : d = NOT_KNOWN
    · subst hd; simp [fan_power_override_set, h, doNotify]
    · by_cases hp : s.power = d <;>
        simp [fan_power_override_set, h, hd, hp, fps_count, doNotify]

/-! ### Claim theorems -/

/-- Claim C1 (code evaluated at the failing input): a 3-byte write to the Fan
Power Override characteristic, which the claim says must fail with
`INVALID_ATTRIBUTE_VALUE_LENGTH` and leave the state unchanged, in fact
succeeds (`attr_write` returns 0) and sets both the override and the power
from the first byte: the handler converts the consumer with the plain one-byte
conversion instead of `exactly`, so surplus bytes are accepted. -/
theorem fan_c1_behavior :
    (attr_write 9 HANDLE_FAN_POWER_OVERRIDE_VALUE 0 [100, 0, 0] 3 initState).1 = .ok
  ∧ (attr_write 9 HANDLE_FAN_POWER_OVERRIDE_VALUE 0 [100, 0, 0] 3 initState).2.override = 100
  ∧ (attr_write 9 HANDLE_FAN_POWER_OVERRIDE_VALUE 0 [100, 0, 0] 3 initState).2.power = 100
  ∧ (attr_write 9 HANDLE_FAN_POWER_OVERRIDE_VALUE 0 [100, 0, 0] 3 initState).2
      ≠ initState := by decide

/-- Claim C2 (code evaluated at the failing input): with both slots of a
2-slot table occupied by handles 1 and 2 and a notification pending for
handle 1, `unregister 1` does remove the pending registration from the
stack's list and clears the slot — but it marks the slot with `nullptr` (0)
while `register_` only claims slots marked `HCI_CON_HANDLE_INVALID` (0xFFFF),
so a later `register_ 3` finds no free slot and fails, and `notify()` keeps
issuing a send request for the phantom handle 0. The freed slot is therefore
not reusable, contradicting the claim (and the code's own `unassign slot`
comment). -/
theorem fan_c2_behavior :
    (unregister [1, 2] 1 [⟨1, true⟩, ⟨2, false⟩]).1 = true
  ∧ (unregister [1, 2] 1 [⟨1, true⟩, ⟨2, false⟩]).2 = [⟨0, false⟩, ⟨2, false⟩]
  ∧ pendingFor (unregister [1, 2] 1 [⟨1, true⟩, ⟨2, false⟩]).2 1 = false
  ∧ (register_ (unregister [1, 2] 1 [⟨1, true⟩, ⟨2, false⟩]).2 3).1 = false
  ∧ (register_ (unregister [1, 2] 1 [⟨1, true⟩, ⟨2, false⟩]).2 3).2
      = (unregister [1, 2] 1 [⟨1, true⟩, ⟨2, false⟩]).2
  ∧ notifyRequests (unregister [1, 2] 1 [⟨1, true⟩, ⟨2, false⟩]).2 = [0, 2] := by decide

/-- Claim C3, counterexample: for the duty 0.5% (raw byte 1) the programmed
PWM duty is `⌊65535 × 1/200⌋ = 327`, not the claimed `round(65535 × 1/200)
= 328`: the C cast truncates. -/
theorem fan_c3_counterexample :
    (fan_power_set 1 initState).pwmDuty = 327
  ∧ specRoundDuty 1 = 328
  ∧ (fan_power_set 1 initState).pwmDuty ≠ specRoundDuty 1 := by decide

/-- Claim C3 as amended: in any state satisfying the spec's PWM invariant
(`pwmDuty = dutyOf power`), after `fan_power_set d` the reported power is
`d.value_or(0)` and the PWM duty register equals the truncation
`⌊65535 × d.value_or(0)/100⌋` (not the rounding the claim stated). -/
theorem fan_c3_amended (d : Nat) (s : FanState) (h : s.pwmDuty = dutyOf s.power) :
    fan_power (fan_power_set d s) = value_or0 d
  ∧ (fan_power_set d s).pwmDuty = dutyOf d := by
  by_cases hp : s.power = d
  · rw [fps_noop d s hp]
    exact ⟨by rw [fan_power, hp], by rw [h, hp]⟩
  · constructor
    · rw [fan_power, fps_power]
    · simp [fan_power_set, hp]

/-- Claim C3, witness for the amended theorem at `d = 3` from the initial
state (whose PWM invariant holds by computation). -/
theorem fan_c3_witness :
    initState.pwmDuty = dutyOf initState.power
  ∧ (fan_power (fan_power_set 3 initState) = value_or0 3
      ∧ (fan_power_set 3 initState).pwmDuty = dutyOf 3) :=
  ⟨by decide, fan_c3_amended 3 initState (by decide)⟩

/-- Claim C4, counterexample: from power 0 and override unknown with one
subscriber, writing the single byte 0x64 to Fan Power Override yields an
aggregate read of `{0x64, 0x64, 0x0000}` — not the `{0xC8, 0xC8, 0x0000}` the
claim states: the raw Percentage8 byte round-trips unchanged. -/
theorem fan_c4_counterexample :
    aggregateBytes (attr_write 7 HANDLE_FAN_POWER_OVERRIDE_VALUE 0 [100] 1 subState).2
      ≠ [200, 200, 0, 0] := by decide

/-- Claim C4 as amended: from power 0, override unknown, with subscribed live
connection 7, the GATT write of byte 0x64 (= 100) succeeds, the aggregate
reads `{0x64, 0x64, 0x0000}` (power 50%, override 50%, 0 RPM), the notifier is
signalled twice (override change, then power change), and the subscriber is
left with exactly one coalesced pending notification. -/
theorem fan_c4_amended :
    (attr_write 7 HANDLE_FAN_POWER_OVERRIDE_VALUE 0 [100] 1 subState).1 = .ok
  ∧ aggregateBytes (attr_write 7 HANDLE_FAN_POWER_OVERRIDE_VALUE 0 [100] 1 subState).2
      = [100, 100, 0, 0]
  ∧ pendingFor (attr_write 7 HANDLE_FAN_POWER_OVERRIDE_VALUE 0 [100] 1 subState).2.slots 7
      = true
  ∧ (attr_write 7 HANDLE_FAN_POWER_OVERRIDE_VALUE 0 [100] 1 subState).2.notifyCount
      = 2 := by decide

/-- Claim C6, counterexample: calling the override setter twice with the same
value 100 from the initial subscribed state signals the aggregate notifier
twice, not once: the first call signals for the override change and again for
the power change it triggers (the second call is indeed a no-op). -/
theorem fan_c6_counterexample :
    subState.notifyCount = 0
  ∧ (fan_power_override_set 100 (fan_power_override_set 100 subState)).notifyCount
      = 2 := by decide

/-- Claim C6 as amended: the second of two equal-valued calls is always a
no-op (the state is unchanged), and the number of notifier signals produced by
a call is: for `fan_power_set d`, one iff `d` differs from the current power,
else zero; for the override setter, zero if `d` equals the current override,
two if in addition `d` is known and differs from the current power, else
one. -/
theorem fan_c6_amended (d : Nat) (s : FanState) :
    fan_power_set d (fan_power_set d s) = fan_power_set d s
  ∧ (fan_power_set d s).notifyCount = s.notifyCount + (if s.power = d then 0 else 1)
  ∧ fan_power_override_set d (fan_power_override_set d s) = fan_power_override_set d s
  ∧ (fan_power_override_set d s).notifyCount
      = s.notifyCount + (if s.override = d then 0
          else if d ≠ NOT_KNOWN ∧ s.power ≠ d then 2 else 1) :=
  ⟨fps_noop d (fan_power_set d s) (fps_power d s),
   fps_count d s,
   fpo_noop d (fan_power_override_set d s) (fpo_override d s),
   fpo_count d s⟩

/-- Claim C7, counterexample: a write to Fan Power Override at offset 1 of a
2-byte buffer — a nonzero offset — does not return `INVALID_OFFSET`: it
succeeds and sets the override from the byte at the offset, because the code
only rejects offsets beyond the end of the buffer. -/
theorem fan_c7_counterexample :
    (attr_write 9 HANDLE_FAN_POWER_OVERRIDE_VALUE 1 [170, 100] 2 initState).1 = .ok
  ∧ (attr_write 9 HANDLE_FAN_POWER_OVERRIDE_VALUE 1 [170, 100] 2 initState).1
      ≠ .err ATT_ERROR_INVALID_OFFSET
  ∧ (attr_write 9 HANDLE_FAN_POWER_OVERRIDE_VALUE 1 [170, 100] 2 initState).2.override
      = 100 := by decide

/-- Claim C7 as amended: `attr_write` returns `ATT_ERROR_INVALID_OFFSET` and
leaves the state unchanged exactly when the offset exceeds the value length;
that is the only offset check it performs, for every attribute handle. -/
theorem fan_c7_amended (conn ah off : Nat) (buf : List Nat) (n : Nat) (s : FanState)
    (h : n < off) :
    attr_write conn ah off buf n s = (.err ATT_ERROR_INVALID_OFFSET, s) := by
  simp [attr_write, h]

/-- Claim C7, witness: the amended theorem applied at offset 5 on a 2-byte
value. -/
theorem fan_c7_witness :
    (2 : Nat) < 5
  ∧ attr_write 0 0 5 [] 2 initState = (.err ATT_ERROR_INVALID_OFFSET, initState) :=
  ⟨by decide, fan_c7_amended 0 0 5 [] 2 initState (by decide)⟩

/-! ### The event system and the override invariant (C5) -/

/-- The operations that can touch the fan state, at event-loop granularity:
a policy tick (parameterised by the policy's output byte and its advanced
cooldown state), a call of the override setter, a tachometer tick, a GATT
attribute write, and a disconnect. -/
inductive Event
  | policy (out : Nat) (pol : Option Nat)
  | setOverride (d : Nat)
  | tach (r : Nat)
  | gattWrite (conn ah off : Nat) (buf : List Nat) (n : Nat)
  | disconnect (conn : Nat)

/-- One event-loop step. -/
def step : Event → FanState → FanState
  | .policy out pol, s => policyTick out pol s
  | .setOverride d, s => fan_power_override_set d s
  | .tach r, s => tachTick r s
  | .gattWrite conn ah off buf n, s => (attr_write conn ah off buf n s).2
  | .disconnect conn, s => disconnected conn s

/-- The override invariant: whenever an override is set, the applied power
equals it. -/
def Inv (s : FanState) : Prop := s.override ≠ NOT_KNOWN → s.power = s.override

lemma policyTick_noop (out : Nat) (pol : Option Nat) (s : FanState)
    (h : s.override ≠ NOT_KNOWN) : policyTick out pol s = s := by
  simp [policyTick, h]

lemma policyTick_override (out : Nat) (pol : Option Nat) (s : FanState) :
    (policyTick out pol s).override = s.override := by
  by_cases h : s.override = NOT_KNOWN
  · unfold policyTick
    rw [if_neg (not_not_intro h)]
    rw [fps_override]
  · rw [policyTick_noop out pol s h]

lemma inv_fpo (d : Nat) (s : FanState) (h : Inv s) :
    Inv (fan_power_override_set d s) := by
  by_cases h1 : s.override = d
  · rw [fpo_noop d s h1]; exact h
  · by_cases hd : d = NOT_KNOWN
    · subst hd
      intro hc
      rw [fpo_override] at hc
      exact absurd rfl hc
    · intro _
      rw [fpo_override]
      simp [fan_power_override_set, h1, hd, fps_power]

lemma inv_attr_write (conn ah off : Nat) (buf : List Nat) (n : Nat) (s : FanState)
    (h : Inv s) : Inv ((attr_write conn ah off buf n s).2) := by
  unfold attr_write
  dsimp only
  repeat' split <;> try exact h
  all_goals exact inv_fpo _ _ h

/-- Claim C5: first, whenever an override is set, a policy tick is a complete
no-op (the whole state — power, override, cooldown state, PWM duty — is
returned unchanged, and the policy instance is not even invoked); second, the
invariant "override set implies power equals override" is established
initially and preserved by every event, so `power == override` holds after
every controller tick for as long as the override stays set. -/
theorem fan_c5_invariant :
    (∀ (s : FanState) (out : Nat) (pol : Option Nat),
        s.override ≠ NOT_KNOWN → policyTick out pol s = s)
  ∧ (∀ (e : Event) (s : FanState), Inv s → Inv (step e s))
  ∧ Inv initState := by
  refine ⟨?_, ?_, ?_⟩
  · intro s out pol h
    exact policyTick_noop out pol s h
  · intro e s h
    cases e with
    | policy out pol =>
      show Inv (policyTick out pol s)
      intro hc
      rw [policyTick_override] at hc
      rw [policyTick_noop out pol s hc]
      exact h hc
    | setOverride d => exact inv_fpo d s h
    | tach r =>
      show Inv (tachTick r s)
      unfold tachTick
      split
      · exact h
      · exact h
    | gattWrite conn ah off buf n => exact inv_attr_write conn ah off buf n s h
    | disconnect conn => exact h
  · intro hc
    exact absurd rfl hc

/-- State with an override in force, for the C5 witness. -/
def ovrState : FanState := { initState with power := 100, override := 100 }

/-- Claim C5, witness: the invariant theorem applied at a concrete overridden
state, for a policy tick and for an override change. -/
theorem fan_c5_witness :
    policyTick 7 none ovrState = ovrState
  ∧ (step (.setOverride 40) ovrState).power = (step (.setOverride 40) ovrState).override :=
  ⟨fan_c5_invariant.1 ovrState 7 none (by decide),
   fan_c5_invariant.2.1 (.setOverride 40) ovrState (fun _ => rfl) (by decide)⟩

/-! ### Subscription-table lemmas (C8, C9) -/

lemma registered_false_of (slots : List Slot) (conn : Nat)
    (h : ∀ cb ∈ slots, cb.context ≠ conn) : registered slots conn = false := by
  simp only [registered, List.any_eq_false, beq_iff_eq]
  intro cb hm hq
  exact h cb hm hq.symm

lemma registerGo_full (conn : Nat) (slots : List Slot)
    (h : ∀ cb ∈ slots, cb.context ≠ HCI_CON_HANDLE_INVALID) :
    registerGo conn slots = (false, slots) := by
  induction slots with
  | nil => rfl
  | cons cb rest ih =>
    have hcb := h cb (List.mem_cons_self cb rest)
    simp only [registerGo, if_pos hcb,
      ih fun x hx => h x (List.mem_cons_of_mem cb hx)]

lemma register_full (conn : Nat) (slots : List Slot)
    (h : ∀ cb ∈ slots, cb.context ≠ HCI_CON_HANDLE_INVALID)
    (h2 : registered slots conn = false) :
    register_ slots conn = (false, slots) := by
  unfold register_
  rw [h2]
  simp only [Bool.false_eq_true, if_false]
  exact registerGo_full conn slots h

lemma registered_registerGo (conn : Nat) (slots : List Slot)
    (h : registered slots conn = false) :
    registered (registerGo conn slots).2 conn = hasFreeSlot slots := by
  induction slots with
  | nil => rfl
  | cons cb rest ih =>
    simp only [registered, List.any_cons, Bool.or_eq_false_iff] at h
    obtain ⟨h1, h2⟩ := h
    by_cases hc : cb.context = HCI_CON_HANDLE_INVALID
    · simp only [registerGo, if_neg (not_not_intro hc)]
      simp [registered, hasFreeSlot, List.any_cons, hc]
    · simp only [registerGo, if_pos hc]
      simp only [registered, List.any_cons] at ih ⊢
      simp only [hasFreeSlot, List.any_cons]
      rw [h1, ih h2, beq_eq_false_iff_ne.mpr hc]
      simp [hasFreeSlot]

lemma registered_register (slots : List Slot) (conn : Nat) :
    registered (register_ slots conn).2 conn
      = (registered slots conn || hasFreeSlot slots) := by
  cases hreg : registered slots conn
  · simp only [register_, hreg, Bool.false_eq_true, if_false, Bool.false_or]
    exact registered_registerGo conn slots hreg
  · simp [register_, hreg]

lemma registered_of_countP_zero (slots : List Slot) (conn : Nat)
    (h : slots.countP (fun cb => conn == cb.context) = 0) :
    registered slots conn = false := by
  simp only [registered, List.any_eq_false]
  intro cb hm
  exact List.countP_eq_zero.mp h cb hm

lemma registered_unregisterGo (conn : Nat) (slots : List Slot) (hc : conn ≠ 0)
    (h : slots.countP (fun cb => conn == cb.context) ≤ 1) :
    registered (unregisterGo conn slots).2 conn = false := by
  induction slots with
  | nil => rfl
  | cons cb rest ih =>
    rw [List.countP_cons] at h
    by_cases he : conn ≠ cb.context
    · simp only [unregisterGo, if_pos he]
      simp only [registered, List.any_cons, beq_eq_false_iff_ne.mpr he, Bool.false_or]
      apply ih
      omega
    · push_neg at he
      simp only [unregisterGo, if_neg (not_not_intro he)]
      simp only [registered, List.any_cons]
      have hbeq : (conn == cb.context) = true := beq_iff_eq.mpr he
      simp only [hbeq, if_pos] at h
      have hcnt : rest.countP (fun cb => conn == cb.context) = 0 := by omega
      have hrest := registered_of_countP_zero rest conn hcnt
      simp only [registered] at hrest
      simp [beq_eq_false_iff_ne.mpr hc, hrest]

/-- Reduction of a 2-byte CCCD write through `attr_write`: always succeeds;
the slot table goes through `register_` or `unregister` according to bit 0 of
the little-endian value. -/
lemma attr_write_cccd (conn b0 b1 : Nat) (s : FanState) :
    attr_write conn HANDLE_FAN_AGGREGATE_CLIENT_CONFIGURATION 0 [b0, b1] 2 s
      = (.ok, { s with slots :=
          if (b0 % 256 + 256 * (b1 % 256)) % 2 = 1
          then (register_ s.slots conn).2
          else (unregister s.live conn s.slots).2 }) := by
  by_cases hb : (b0 % 256 + 256 * (b1 % 256)) % 2 = 1 <;>
    simp [attr_write, HANDLE_FAN_AGGREGATE_CLIENT_CONFIGURATION,
      HANDLE_FAN_POLICY_COOLDOWN_VALUE, HANDLE_FAN_POLICY_VOC_PASSIVE_MAX_VALUE,
      HANDLE_FAN_POLICY_VOC_IMPROVE_MIN_VALUE, client_configuration_write,
      WriteConsumer.consume, WriteConsumer.has_available, WriteConsumer.remaining,
      leU16, hb]

/-- Claim C8: with every slot of the aggregate notifier occupied by other
handles, a 2-byte CCCD write with the notify bit set for a fresh connection
returns success yet changes nothing: the state is untouched, no subsequent
`notify()` issues a send request for that connection, and the CCCD read for it
stays 0. -/
theorem fan_c8 (conn : Nat) (s : FanState)
    (hfull : ∀ cb ∈ s.slots, cb.context ≠ HCI_CON_HANDLE_INVALID)
    (hother : ∀ cb ∈ s.slots, cb.context ≠ conn) :
    (attr_write conn HANDLE_FAN_AGGREGATE_CLIENT_CONFIGURATION 0 [1, 0] 2 s).1 = .ok
  ∧ (attr_write conn HANDLE_FAN_AGGREGATE_CLIENT_CONFIGURATION 0 [1, 0] 2 s).2 = s
  ∧ conn ∉ notifyRequests
      (attr_write conn HANDLE_FAN_AGGREGATE_CLIENT_CONFIGURATION 0 [1, 0] 2 s).2.slots
  ∧ client_configuration_read
      (attr_write conn HANDLE_FAN_AGGREGATE_CLIENT_CONFIGURATION 0 [1, 0] 2 s).2.slots conn
      = 0 := by
  have hreg : registered s.slots conn = false := registered_false_of _ _ hother
  have hrw : attr_write conn HANDLE_FAN_AGGREGATE_CLIENT_CONFIGURATION 0 [1, 0] 2 s
      = (.ok, s) := by
    rw [attr_write_cccd]
    norm_num [register_full conn s.slots hfull hreg]
  refine ⟨by rw [hrw], by rw [hrw], ?_, ?_⟩
  · rw [hrw]
    simp only [notifyRequests, List.mem_filterMap, not_exists]
    rintro cb ⟨hm, hif⟩
    by_cases hcc : cb.context = HCI_CON_HANDLE_INVALID
    · rw [if_pos hcc] at hif
      exact Option.noConfusion hif
    · rw [if_neg hcc] at hif
      exact hother cb hm (Option.some.inj hif)
  · rw [hrw]
    simp [client_configuration_read, hreg]

/-- Full 2-slot table, for the C8 witness. -/
def fullState : FanState := { initState with slots := [⟨1, false⟩, ⟨2, false⟩], live := [1, 2, 3] }

/-- Claim C8, witness: the theorem applied to a full 2-slot table and the
fresh connection handle 3. -/
theorem fan_c8_witness :
    (attr_write 3 HANDLE_FAN_AGGREGATE_CLIENT_CONFIGURATION 0 [1, 0] 2 fullState).1 = .ok
  ∧ (attr_write 3 HANDLE_FAN_AGGREGATE_CLIENT_CONFIGURATION 0 [1, 0] 2 fullState).2 = fullState
  ∧ 3 ∉ notifyRequests
      (attr_write 3 HANDLE_FAN_AGGREGATE_CLIENT_CONFIGURATION 0 [1, 0] 2 fullState).2.slots
  ∧ client_configuration_read
      (attr_write 3 HANDLE_FAN_AGGREGATE_CLIENT_CONFIGURATION 0 [1, 0] 2 fullState).2.slots 3
      = 0 :=
  fan_c8 3 fullState (by decide) (by decide)

/-- Full 2-slot table with live handles 4, 5 and 9, for the C9 counterexample. -/
def fullState9 : FanState := { initState with slots := [⟨4, false⟩, ⟨5, false⟩], live := [4, 5, 9] }

/-- Claim C9, counterexample: with the slot table full, a well-formed 2-byte
CCCD write with the notify bit set still returns success but does not set the
connection's subscription — so "the subscription is set or cleared according
to bit 0" fails as stated. -/
theorem fan_c9_counterexample :
    (attr_write 9 HANDLE_FAN_AGGREGATE_CLIENT_CONFIGURATION 0 [1, 0] 2 fullState9).1 = .ok
  ∧ registered
      (attr_write 9 HANDLE_FAN_AGGREGATE_CLIENT_CONFIGURATION 0 [1, 0] 2 fullState9).2.slots 9
      = false := by decide

/-- Claim C9 as amended: a CCCD write for Fan Aggregate succeeds exactly when
the value is 2 bytes. On success with bit 0 of the little-endian value set,
the connection ends up subscribed iff it already was or a free slot exists
(a full table still reports success without subscribing); with bit 0 clear —
for a nonzero handle with a live HCI connection, registered at most once —
the subscription is cleared. Any other value length fails with
`INVALID_ATTRIBUTE_VALUE_LENGTH` and leaves state, subscriptions included,
unchanged. -/
theorem fan_c9_amended (conn : Nat) (s : FanState) :
    (∀ (buf : List Nat) (n : Nat), n ≠ 2 →
        attr_write conn HANDLE_FAN_AGGREGATE_CLIENT_CONFIGURATION 0 buf n s
          = (.err ATT_ERROR_INVALID_ATTRIBUTE_VALUE_LENGTH, s))
  ∧ (∀ b0 b1 : Nat, b0 % 2 = 1 →
        (attr_write conn HANDLE_FAN_AGGREGATE_CLIENT_CONFIGURATION 0 [b0, b1] 2 s).1 = .ok
      ∧ registered
          (attr_write conn HANDLE_FAN_AGGREGATE_CLIENT_CONFIGURATION 0 [b0, b1] 2 s).2.slots
          conn
          = (registered s.slots conn || hasFreeSlot s.slots))
  ∧ (∀ b0 b1 : Nat, b0 % 2 = 0 → s.live.contains conn = true → conn ≠ 0 →
        s.slots.countP (fun cb => conn == cb.context) ≤ 1 →
        (attr_write conn HANDLE_FAN_AGGREGATE_CLIENT_CONFIGURATION 0 [b0, b1] 2 s).1 = .ok
      ∧ registered
          (attr_write conn HANDLE_FAN_AGGREGATE_CLIENT_CONFIGURATION 0 [b0, b1] 2 s).2.slots
          conn
          = false) := by
  refine ⟨?_, ?_, ?_⟩
  · intro buf n hn
    by_cases h2 : n < 2
    · have hna : ¬2 ≤ n := by omega
      simp [attr_write, HANDLE_FAN_AGGREGATE_CLIENT_CONFIGURATION,
        HANDLE_FAN_POLICY_COOLDOWN_VALUE, HANDLE_FAN_POLICY_VOC_PASSIVE_MAX_VALUE,
        HANDLE_FAN_POLICY_VOC_IMPROVE_MIN_VALUE, client_configuration_write,
        WriteConsumer.consume, WriteConsumer.has_available, hna]
    · have hle : 2 ≤ n := by omega
      have hnz : ¬n - 2 = 0 := by omega
      have hlt : ¬n < 2 := by omega
      simp [attr_write, HANDLE_FAN_AGGREGATE_CLIENT_CONFIGURATION,
        HANDLE_FAN_POLICY_COOLDOWN_VALUE, HANDLE_FAN_POLICY_VOC_PASSIVE_MAX_VALUE,
        HANDLE_FAN_POLICY_VOC_IMPROVE_MIN_VALUE,
        ATT_ERROR_INVALID_ATTRIBUTE_VALUE_LENGTH, client_configuration_write,
        WriteConsumer.consume, WriteConsumer.has_available, WriteConsumer.remaining,
        hle, hnz, hlt]
  · intro b0 b1 hb
    have hb2 : (b0 % 256 + 256 * (b1 % 256)) % 2 = 1 := by omega
    rw [attr_write_cccd, if_pos hb2]
    exact ⟨rfl, registered_register s.slots conn⟩
  · intro b0 b1 hb hlive hc0 hcnt
    have hb2 : ¬(b0 % 256 + 256 * (b1 % 256)) % 2 = 1 := by omega
    rw [attr_write_cccd, if_neg hb2]
    refine ⟨rfl, ?_⟩
    show registered (unregister s.live conn s.slots).2 conn = false
    rw [unregister, if_pos hlive]
    exact registered_unregisterGo conn s.slots hc0 hcnt

/-- Claim C9, witness: the amended theorem applied to the single-subscriber
state — an unsubscribe (bit 0 clear) for the live handle 7, and a 1-byte write
rejected without state change. -/
theorem fan_c9_witness :
    ((attr_write 7 HANDLE_FAN_AGGREGATE_CLIENT_CONFIGURATION 0 [0, 0] 2 subState).1 = .ok
      ∧ registered
          (attr_write 7 HANDLE_FAN_AGGREGATE_CLIENT_CONFIGURATION 0 [0, 0] 2 subState).2.slots
          7
          = false)
  ∧ attr_write 7 HANDLE_FAN_AGGREGATE_CLIENT_CONFIGURATION 0 [9] 1 subState
      = (.err ATT_ERROR_INVALID_ATTRIBUTE_VALUE_LENGTH, subState) :=
  ⟨(fan_c9_amended 7 subState).2.2 0 0 (by decide) (by decide) (by decide) (by decide),
   (fan_c9_amended 7 subState).1 [9] 1 (by decide)⟩

/-! ### WriteConsumer totality (C10) -/

lemma has_available_iff (c : WriteConsumer) (n : Nat) :
    c.has_available n = true ↔ c.offset ≤ c.buffer_size ∧ n ≤ c.buffer_size - c.offset := by
  unfold WriteConsumer.has_available
  by_cases h : c.buffer_size < c.offset <;> simp [h]
  omega

/-- Claim C10: a `WriteConsumer` conversion is total. `remaining()` returns 0
(rather than underflowing) whenever the cursor is past the end; an `n`-byte
conversion either raises `AttrWriteException` with
`ATT_ERROR_INVALID_ATTRIBUTE_VALUE_LENGTH` — exactly when fewer than `n` bytes
remain, including when the offset exceeds the buffer size — or returns
precisely the bytes at indices `[offset, offset+n)`, which then all lie below
`buffer_size`, advancing the cursor by `n`. -/
theorem fan_c10_consumer (c : WriteConsumer) (n : Nat) :
    (c.buffer_size < c.offset → c.remaining = 0)
  ∧ (match c.consume n with
     | .error e => e = ATT_ERROR_INVALID_ATTRIBUTE_VALUE_LENGTH
         ∧ (c.buffer_size < c.offset ∨ c.buffer_size - c.offset < n)
     | .ok p => p.1 = (c.buffer.drop c.offset).take n
         ∧ c.offset + n ≤ c.buffer_size
         ∧ p.2 = { c with offset := c.offset + n }) := by
  constructor
  · intro h
    simp [WriteConsumer.remaining, h]
  · by_cases h : c.has_available n = true
    · rw [WriteConsumer.consume, if_pos h]
      obtain ⟨hh1, hh2⟩ := (has_available_iff c n).mp h
      refine ⟨rfl, ?_, rfl⟩
      omega
    · rw [WriteConsumer.consume, if_neg h]
      refine ⟨rfl, ?_⟩
      by_cases h1 : c.buffer_size < c.offset
      · exact Or.inl h1
      · refine Or.inr ?_
        by_cases h2 : c.buffer_size - c.offset < n
        · exact h2
        · exact absurd ((has_available_iff c n).mpr ⟨by omega, by omega⟩) h

/-- Claim C10, witness: a consumer whose offset (5) exceeds its buffer size
(3) reports 0 remaining bytes. -/
theorem fan_c10_witness : (WriteConsumer.mk 5 [1, 2, 3] 3).remaining = 0 :=
  (fan_c10_consumer ⟨5, [1, 2, 3], 3⟩ 0).1 (by decide)

end Nevermore
